import Mathlib

/-!
Verification development for the site-security-analyzer backend.

The definitions below are a shallow embedding of the Python code in
backend/app.py and backend/celery_tasks.py.  Effectful dependencies
(DNS resolution via socket.getaddrinfo, TXT lookups via dns.resolver,
the HTTP fetch, the redis cache and the database) are passed in
explicitly as function or data arguments; pure Python stdlib helpers
(urlparse hostname extraction, ipaddress classification ranges) are
modelled directly from their documented semantics.  Machine integers
are Nat/Int (Python integers are unbounded, so no wrap-around is
modelled); Python dicts that serve as records become structures, and
dicts used as string-keyed mappings become association lists in
insertion order.
-/

/-! ### Basic string helpers (Python substring / strip semantics) -/

/-- Boolean test that the character list p occurs as a contiguous
sublist of l; models the Python expression p in s on strings. -/
def listContainsSub (p : List Char) : List Char → Bool
  | [] => p.isEmpty
  | c :: t => List.isPrefixOf p (c :: t) || listContainsSub p t

/-- Models the Python expression pat in s (substring containment,
case-sensitive). -/
def strContainsStr (s pat : String) : Bool :=
  listContainsSub pat.toList s.toList

/-- Models Python s.startswith(pat). -/
def strStartsWithStr (s pat : String) : Bool :=
  List.isPrefixOf pat.toList s.toList

/-- Models Python s.endswith(pat). -/
def strEndsWithStr (s pat : String) : Bool :=
  List.isPrefixOf pat.toList.reverse s.toList.reverse

/-- Models Python s.upper() (ASCII, which is all header data uses). -/
def strUpper (s : String) : String :=
  String.mk (s.toList.map Char.toUpper)

/-- Models Python s.lower() (ASCII, which is all header data uses). -/
def strLower (s : String) : String :=
  String.mk (s.toList.map Char.toLower)

/-- Models Python s.strip of the double-quote character: removes all
leading and trailing double-quote characters. -/
def stripQuotes (s : String) : String :=
  String.mk (((s.toList.dropWhile (fun c => c == '"')).reverse.dropWhile
    (fun c => c == '"')).reverse)

/-- Models the zone-identifier strip in the source: if the address
string contains a percent sign, keep only the part before the first
one (ip_str.split of the percent character, first component). -/
def stripZone (s : String) : String :=
  String.mk (s.toList.takeWhile (fun c => c != '%'))

/-- Models Python headers.get(key, default empty string) on a plain
(case-sensitive) dict, embedded as an association list. -/
def getHeader (headers : List (String × String)) (k : String) : String :=
  (headers.lookup k).getD ""

/-! ### The finding record

A Python finding dict such as
present/value/score/severity/details (plus per-signal extras) becomes
one structure; a key that a given code path does not set is modelled
as the field value none (respectively the empty string for details,
which every severity-carrying path does set). -/

structure Finding where
  present : Bool
  value : Option String := none
  score : Int
  severity : Option String := none
  details : String := ""
  max_age : Option Nat := none
  includeSubDomains : Option Bool := none
  preload : Option Bool := none
  issues : Option (List String) := none
  record : Option String := none
deriving DecidableEq

/-- A value of the heterogeneous dict handed to
calculate_overall_score: either a finding dict (which always carries
a score key) or any non-dict value (the fields of the cookie dict
that perform_security_scan splats into the merged mapping). -/
inductive PyVal where
  | findingV (f : Finding)
  | other
deriving DecidableEq

/-- Embeds calculate_overall_score from celery_tasks.py: base 50,
plus the score of every entry that is a dict carrying a score key,
clamped into the interval from 0 to 100. -/
def calculate_overall_score (findings : List (String × PyVal)) : Int :=
  let total_score := findings.foldl (fun acc kv =>
    match kv.2 with
    | .findingV f => acc + f.score
    | .other => acc) 50
  max 0 (min 100 total_score)

/-- Score contribution of one merged-dict entry. -/
def pyScore : PyVal → Int
  | .findingV f => f.score
  | .other => 0

theorem score_foldl_eq (l : List (String × PyVal)) (acc : Int) :
    l.foldl (fun acc kv =>
      match kv.2 with
      | PyVal.findingV f => acc + f.score
      | PyVal.other => acc) acc
      = acc + (l.map (fun kv => pyScore kv.2)).sum := by
  induction l generalizing acc with
  | nil => simp
  | cons hd tl ih =>
    rcases hd with ⟨k, v⟩
    cases v with
    | findingV f => simp [ih, pyScore]; ring
    | other => simp [ih, pyScore]

/-- C4: for every finding mapping, calculate_overall_score equals 50
plus the sum of every finding entry's signed score field, clamped to
the interval from 0 to 100. -/
theorem C4_score_is_clamped_base_plus_sum (fs : List (String × Finding)) :
    calculate_overall_score (fs.map (fun kv => (kv.1, PyVal.findingV kv.2)))
      = max 0 (min 100 (50 + (fs.map (fun kv => kv.2.score)).sum)) := by
  simp only [calculate_overall_score, score_foldl_eq, List.map_map]
  rfl

/-- C9: calculate_overall_score is monotone under adding a
previously-absent finding with non-negative score, and its result is
always inside the interval from 0 to 100. -/
theorem C9_score_monotone_and_bounded (fs : List (String × PyVal))
    (k : String) (f : Finding)
    (hpos : 0 ≤ f.score) (_habsent : k ∉ fs.map Prod.fst) :
    calculate_overall_score fs
      ≤ calculate_overall_score (fs ++ [(k, PyVal.findingV f)])
    ∧ 0 ≤ calculate_overall_score fs
    ∧ calculate_overall_score fs ≤ 100 := by
  have h1 := score_foldl_eq fs 50
  have h2 := score_foldl_eq (fs ++ [(k, PyVal.findingV f)]) 50
  simp only [calculate_overall_score, h1, h2, List.map_append, List.sum_append,
    List.map_cons, List.map_nil, List.sum_cons, List.sum_nil, pyScore]
  omega

/-- Witness for C9 at a concrete finding set: adding a pass finding
for SPF to a set holding only the https finding does not decrease the
score, which stays inside bounds. -/
theorem C9_witness :
    (0 : Int) ≤ (⟨true, none, 5, some "pass", "SPF protects against email spoofing",
        none, none, none, none, none⟩ : Finding).score
    ∧ "dns_spf" ∉ ([("https", PyVal.findingV
        ⟨true, none, 15, some "pass", "HTTPS encrypts traffic",
          none, none, none, none, none⟩)] : List (String × PyVal)).map Prod.fst
    ∧ (calculate_overall_score [("https", PyVal.findingV
        ⟨true, none, 15, some "pass", "HTTPS encrypts traffic",
          none, none, none, none, none⟩)]
      ≤ calculate_overall_score ([("https", PyVal.findingV
        ⟨true, none, 15, some "pass", "HTTPS encrypts traffic",
          none, none, none, none, none⟩)] ++ [("dns_spf", PyVal.findingV
        ⟨true, none, 5, some "pass", "SPF protects against email spoofing",
          none, none, none, none, none⟩)])
      ∧ 0 ≤ calculate_overall_score [("https", PyVal.findingV
        ⟨true, none, 15, some "pass", "HTTPS encrypts traffic",
          none, none, none, none, none⟩)]
      ∧ calculate_overall_score [("https", PyVal.findingV
        ⟨true, none, 15, some "pass", "HTTPS encrypts traffic",
          none, none, none, none, none⟩)] ≤ 100) :=
  ⟨by decide, by decide,
    C9_score_monotone_and_bounded _ "dns_spf" _ (by decide) (by decide)⟩

/-! ### Header analysis (analyze_security_headers in celery_tasks.py) -/

/-- Numeric value of a run of decimal digit characters (Python int). -/
def natOfDigits (ds : List Char) : Nat :=
  ds.foldl (fun acc c => 10 * acc + (c.toNat - 48)) 0

/-- Models re.search for the pattern max-age=(digits): scan left to
right for the first position where the literal max-age= is followed
by at least one digit, and return the value of the maximal digit run
there; none when no position matches. -/
def findMaxAge : List Char → Option Nat
  | [] => none
  | c :: rest =>
    if List.isPrefixOf "max-age=".toList (c :: rest) then
      let ds := ((c :: rest).drop 8).takeWhile (fun ch => ch.isDigit)
      if ds.isEmpty then findMaxAge rest else some (natOfDigits ds)
    else findMaxAge rest

/-- The max-age parsed from an HSTS header value, defaulting to 0
when the pattern does not match (missing or unparseable). -/
def hsts_max_age (hsts : String) : Nat :=
  (findMaxAge hsts.toList).getD 0

/-- The https finding: present iff the (final) url starts with the
https scheme. -/
def https_finding (url : String) : Finding :=
  { present := strStartsWithStr url "https://"
    score := if strStartsWithStr url "https://" then 15 else 0
    severity := some (if strStartsWithStr url "https://" then "pass" else "critical")
    details := if strStartsWithStr url "https://" then "HTTPS encrypts traffic"
               else "No HTTPS - traffic can be intercepted" }

/-- The hsts finding built from the raw Strict-Transport-Security
header value (empty string when the header is absent). -/
def hsts_finding (hsts : String) : Finding :=
  if hsts ≠ "" then
    let max_age := hsts_max_age hsts
    let has_subdomains := strContainsStr hsts "includeSubDomains"
    let has_preload := strContainsStr hsts "preload"
    let sc : Int × String :=
      if 31536000 ≤ max_age ∧ has_subdomains = true then (15, "pass")
      else if 31536000 ≤ max_age then (10, "info")
      else if 0 < max_age then (5, "warning")
      else (0, "fail")
    { present := true, value := some hsts, max_age := some max_age,
      includeSubDomains := some has_subdomains, preload := some has_preload,
      score := sc.1, severity := some sc.2,
      details := "HSTS enforces HTTPS for " ++ toString max_age ++ " seconds" }
  else
    { present := false, score := 0, severity := some "critical",
      details := "Missing HSTS - vulnerable to protocol downgrade attacks" }

/-- The issue list the analyzer attaches to a present CSP header:
quoted unsafe-inline, quoted unsafe-eval, and the bare wildcard
pattern (space-star-space anywhere, or trailing space-star). -/
def csp_issues (csp : String) : List String :=
  (if strContainsStr csp "\x27unsafe-inline\x27" then
    ["unsafe-inline allows inline scripts"] else [])
  ++ (if strContainsStr csp "\x27unsafe-eval\x27" then
    ["unsafe-eval allows eval()"] else [])
  ++ (if strContainsStr csp " * " || strEndsWithStr csp " *" then
    ["wildcard (*) allows any source"] else [])

/-- Models the value-truncation expression s up to index 200 plus an
ellipsis marker when the string is longer than 200 characters. -/
def truncate200 (s : String) : String :=
  if 200 < s.toList.length then String.mk (s.toList.take 200) ++ "..." else s

/-- The csp finding built from the raw Content-Security-Policy header
value (empty string when the header is absent). -/
def csp_finding (csp : String) : Finding :=
  if csp ≠ "" then
    let issues := csp_issues csp
    { present := true, value := some (truncate200 csp), issues := some issues,
      score := if issues.isEmpty then 20 else 10,
      severity := some (if issues.isEmpty then "pass" else "warning"),
      details := "CSP protects against XSS and injection attacks" }
  else
    { present := false, score := 0, severity := some "high",
      details := "Missing CSP - vulnerable to XSS attacks" }

/-- The x_frame_options finding; the raw header value is upper-cased
before the comparison, as in the source. -/
def xfo_finding (raw : String) : Finding :=
  let xfo := strUpper raw
  if xfo = "DENY" ∨ xfo = "SAMEORIGIN" then
    { present := true, value := some xfo, score := 10, severity := some "pass",
      details := xfo ++ " prevents clickjacking" }
  else if xfo ≠ "" then
    { present := true, value := some xfo, score := 5, severity := some "warning",
      details := "Weak X-Frame-Options value" }
  else
    { present := false, score := 0, severity := some "medium",
      details := "Missing X-Frame-Options - vulnerable to clickjacking" }

/-- The x_content_type_options finding; the raw header value is
lower-cased before the comparison. -/
def xcto_finding (raw : String) : Finding :=
  let xcto := strLower raw
  { present := xcto == "nosniff",
    value := if xcto != "" then some xcto else none,
    score := if xcto == "nosniff" then 5 else 0,
    severity := some (if xcto == "nosniff" then "pass" else "medium"),
    details := if xcto == "nosniff" then "Prevents MIME-type sniffing"
               else "Missing - vulnerable to MIME sniffing" }

/-- The fixed safe Referrer-Policy token list from the source. -/
def secure_policies : List String :=
  ["no-referrer", "same-origin", "strict-origin", "strict-origin-when-cross-origin"]

/-- The referrer_policy finding; score 5 iff any safe policy token
occurs as a substring, severity depends only on header presence. -/
def rp_finding (rp : String) : Finding :=
  { present := rp != "",
    value := if rp != "" then some rp else none,
    score := if secure_policies.any (fun p => strContainsStr rp p) then 5 else 0,
    severity := some (if rp != "" then "pass" else "low"),
    details := if rp != "" then "Controls referrer information leakage"
               else "Missing - referrer data may leak" }

/-- The permissions_policy finding (value already looked up with the
Feature-Policy fallback). -/
def pp_finding (pp : String) : Finding :=
  { present := pp != "",
    value := some (truncate200 pp),
    score := if pp != "" then 5 else 0,
    severity := some (if pp != "" then "pass" else "low"),
    details := if pp != "" then "Controls browser features"
               else "Missing - no control over browser features" }

/-- The optional x_xss_protection entry: value exactly 0 gives an
informational pass, any other non-empty value is penalized, absence
emits no finding. -/
def xxp_entries (xxp : String) : List (String × Finding) :=
  if xxp = "0" then
    [("x_xss_protection",
      { present := true, value := some "0", score := 0, severity := some "info",
        details := "Correctly disabled (deprecated header, CSP is better)" })]
  else if xxp ≠ "" then
    [("x_xss_protection",
      { present := true, value := some xxp, score := -5, severity := some "warning",
        details := "Should be set to 0 or removed (deprecated, can introduce vulnerabilities)" })]
  else []

/-- The optional server_disclosure entry (emitted only when the
Server header is present). -/
def server_entries (server : String) : List (String × Finding) :=
  if server ≠ "" then
    [("server_disclosure",
      { present := true, value := some server, score := -3, severity := some "info",
        details := "Server version disclosed: " ++ server })]
  else []

/-- The optional x_powered_by entry (emitted only when the
X-Powered-By header is present). -/
def xpb_entries (xpb : String) : List (String × Finding) :=
  if xpb ≠ "" then
    [("x_powered_by",
      { present := true, value := some xpb, score := -3, severity := some "info",
        details := "Technology stack disclosed: " ++ xpb })]
  else []

/-- Embeds analyze_security_headers: the findings dict in insertion
order, with the three conditional informational entries at the end. -/
def analyze_security_headers (headers : List (String × String)) (url : String) :
    List (String × Finding) :=
  [("https", https_finding url),
   ("hsts", hsts_finding (getHeader headers "Strict-Transport-Security")),
   ("csp", csp_finding (getHeader headers "Content-Security-Policy")),
   ("x_frame_options", xfo_finding (getHeader headers "X-Frame-Options")),
   ("x_content_type_options", xcto_finding (getHeader headers "X-Content-Type-Options")),
   ("referrer_policy", rp_finding (getHeader headers "Referrer-Policy")),
   ("permissions_policy", pp_finding (match headers.lookup "Permissions-Policy" with
      | some v => v
      | none => getHeader headers "Feature-Policy"))]
  ++ xxp_entries (getHeader headers "X-XSS-Protection")
  ++ server_entries (getHeader headers "Server")
  ++ xpb_entries (getHeader headers "X-Powered-By")

/-- Embeds analyze_cookies: no Set-Cookie header means no penalty and
a two-field dict; otherwise the three attribute checks accumulate
issues. -/
def analyze_cookies (headers : List (String × String)) : Finding :=
  let set_cookie := getHeader headers "Set-Cookie"
  if set_cookie = "" then { present := false, score := 0 }
  else
    let issues :=
      (if !(strContainsStr set_cookie "Secure") then ["Missing Secure flag"] else [])
      ++ (if !(strContainsStr set_cookie "HttpOnly") then ["Missing HttpOnly flag"] else [])
      ++ (if !(strContainsStr set_cookie "SameSite") then ["Missing SameSite attribute"] else [])
    { present := true, issues := some issues,
      score := if issues.isEmpty then 5 else 0,
      severity := some (if issues.isEmpty then "pass" else "warning"),
      details := if issues.isEmpty then "Cookies properly secured"
                 else "Cookie security issues: " ++ String.intercalate ", " issues }

/-- C5 counterexample: a present HSTS header with max-age equal to 0
gets severity fail, not critical, so the claimed mapping (absent or
max-age 0 both give critical) does not hold as stated. -/
theorem C5_counterexample :
    ((analyze_security_headers [("Strict-Transport-Security", "max-age=0")]
        "https://example.com").lookup "hsts").map Finding.severity
      = some (some "fail")
    ∧ some (some "fail") ≠ (some (some "critical") : Option (Option String)) := by
  constructor
  · rfl
  · decide

/-- Severity and score of a present HSTS header, exposed as the
nested conditional from the source. -/
theorem hsts_finding_pos (s : String) (hne : s ≠ "") :
    (hsts_finding s).severity = some ((if 31536000 ≤ hsts_max_age s
        ∧ strContainsStr s "includeSubDomains" = true then ((15 : Int), "pass")
      else if 31536000 ≤ hsts_max_age s then (10, "info")
      else if 0 < hsts_max_age s then (5, "warning")
      else (0, "fail")).2)
    ∧ (hsts_finding s).score = (if 31536000 ≤ hsts_max_age s
        ∧ strContainsStr s "includeSubDomains" = true then ((15 : Int), "pass")
      else if 31536000 ≤ hsts_max_age s then (10, "info")
      else if 0 < hsts_max_age s then (5, "warning")
      else (0, "fail")).1 := by
  simp [hsts_finding, hne]

/-- C5 (amended): the HSTS finding mapping, with the amended last
case: header absent gives critical and 0; header present with
max-age 0 (missing or unparseable max-age included) gives severity
fail and score 0; the other three cases are as claimed, with max-age
parsed numerically defaulting to 0 and includeSubDomains detected as
a case-sensitive substring. -/
theorem C5_hsts_mapping (headers : List (String × String)) (url : String) :
    ((analyze_security_headers headers url).lookup "hsts"
      = some (hsts_finding (getHeader headers "Strict-Transport-Security")))
    ∧ (∀ s : String, s ≠ "" →
        ((31536000 ≤ hsts_max_age s → strContainsStr s "includeSubDomains" = true →
          (hsts_finding s).severity = some "pass" ∧ (hsts_finding s).score = 15)
        ∧ (31536000 ≤ hsts_max_age s → strContainsStr s "includeSubDomains" = false →
          (hsts_finding s).severity = some "info" ∧ (hsts_finding s).score = 10)
        ∧ (0 < hsts_max_age s → hsts_max_age s < 31536000 →
          (hsts_finding s).severity = some "warning" ∧ (hsts_finding s).score = 5)
        ∧ (hsts_max_age s = 0 →
          (hsts_finding s).severity = some "fail" ∧ (hsts_finding s).score = 0)))
    ∧ hsts_finding ""
        = { present := false, score := 0, severity := some "critical",
            details := "Missing HSTS - vulnerable to protocol downgrade attacks" } := by
  refine ⟨rfl, ?_, by simp [hsts_finding]⟩
  intro s hne
  obtain ⟨hsev, hsc⟩ := hsts_finding_pos s hne
  refine ⟨?_, ?_, ?_, ?_⟩
  · intro hma hsub
    rw [hsev, hsc, if_pos ⟨hma, hsub⟩]
    exact ⟨rfl, rfl⟩
  · intro hma hsub
    rw [hsev, hsc, if_neg (by simp [hsub]), if_pos hma]
    exact ⟨rfl, rfl⟩
  · intro h0 hlt
    rw [hsev, hsc, if_neg (fun hc => absurd hc.1 (by omega)),
      if_neg (by omega), if_pos h0]
    exact ⟨rfl, rfl⟩
  · intro h0
    rw [hsev, hsc, if_neg (fun hc => absurd hc.1 (by omega)),
      if_neg (by omega), if_neg (by omega)]
    exact ⟨rfl, rfl⟩

/-- C5 witness: the spec example header value max-age=63072000 with
includeSubDomains yields severity pass and score 15. -/
theorem C5_witness :
    ((analyze_security_headers
        [("Strict-Transport-Security", "max-age=63072000; includeSubDomains")]
        "https://example.com").lookup "hsts"
      = some (hsts_finding "max-age=63072000; includeSubDomains"))
    ∧ (hsts_finding "max-age=63072000; includeSubDomains").severity = some "pass"
    ∧ (hsts_finding "max-age=63072000; includeSubDomains").score = 15 := by
  obtain ⟨hl, hcases, -⟩ := C5_hsts_mapping
    [("Strict-Transport-Security", "max-age=63072000; includeSubDomains")]
    "https://example.com"
  exact ⟨hl, (hcases "max-age=63072000; includeSubDomains" (by decide)).1
    (by decide) (by decide)⟩

/-- C6: the CSP finding mapping exactly as claimed: absent gives high
and 0; present with no issues gives pass and 20; present with an
issue gives warning and 10; an issue is flagged iff the policy text
contains quoted unsafe-inline, quoted unsafe-eval, or the bare
wildcard pattern; and the reported value is the 200-character
truncation (with an ellipsis marker appended when truncated). -/
theorem C6_csp_mapping (headers : List (String × String)) (url : String) :
    ((analyze_security_headers headers url).lookup "csp"
      = some (csp_finding (getHeader headers "Content-Security-Policy")))
    ∧ (csp_finding ""
        = { present := false, score := 0, severity := some "high",
            details := "Missing CSP - vulnerable to XSS attacks" })
    ∧ (∀ csp : String, csp ≠ "" →
        (csp_issues csp = [] →
          (csp_finding csp).severity = some "pass" ∧ (csp_finding csp).score = 20
          ∧ (csp_finding csp).present = true)
        ∧ (csp_issues csp ≠ [] →
          (csp_finding csp).severity = some "warning"
          ∧ (csp_finding csp).score = 10
          ∧ (csp_finding csp).present = true)
        ∧ (csp_issues csp ≠ [] ↔
            (strContainsStr csp "\x27unsafe-inline\x27" = true
             ∨ strContainsStr csp "\x27unsafe-eval\x27" = true
             ∨ (strContainsStr csp " * " || strEndsWithStr csp " *") = true))
        ∧ (csp_finding csp).value = some (truncate200 csp)) := by
  refine ⟨rfl, by simp [csp_finding], ?_⟩
  intro csp hne
  refine ⟨?_, ?_, ?_, ?_⟩
  · intro hiss
    simp [csp_finding, hne, hiss]
  · intro hiss
    simp [csp_finding, hne, hiss]
  · cases h1 : strContainsStr csp "\x27unsafe-inline\x27" <;>
    cases h2 : strContainsStr csp "\x27unsafe-eval\x27" <;>
    cases h3 : (strContainsStr csp " * " || strEndsWithStr csp " *") <;>
      simp [csp_issues, h1, h2, h3]
  · simp [csp_finding, hne]

/-- C6 witness: the spec example policy default-src with quoted self
yields severity pass and score 20. -/
theorem C6_witness :
    ((analyze_security_headers
        [("Content-Security-Policy", "default-src \x27self\x27")]
        "https://example.com").lookup "csp"
      = some (csp_finding (getHeader
          [("Content-Security-Policy", "default-src \x27self\x27")]
          "Content-Security-Policy")))
    ∧ (csp_finding "default-src \x27self\x27").severity = some "pass"
    ∧ (csp_finding "default-src \x27self\x27").score = 20
    ∧ (csp_finding "default-src \x27self\x27").present = true := by
  obtain ⟨hl, -, hcases⟩ := C6_csp_mapping
    [("Content-Security-Policy", "default-src \x27self\x27")] "https://example.com"
  exact ⟨hl, (hcases "default-src \x27self\x27" (by decide)).1 (by decide)⟩

/-! ### IP address model (Python ipaddress classification ranges)

An address is an IPv4 quadruple of octets or an IPv6 value as a
128-bit natural number; the classification predicates below transcribe
the constant networks the Python ipaddress module uses. -/

inductive IPAddr where
  | v4 (a b c d : Nat)
  | v6 (n : Nat)
deriving DecidableEq

def IPAddr.is_loopback : IPAddr → Bool
  | .v4 a _ _ _ => a == 127
  | .v6 n => n == 1

def IPAddr.is_link_local : IPAddr → Bool
  | .v4 a b _ _ => a == 169 && b == 254
  | .v6 n => n / 2 ^ 118 == 0x3fa

def IPAddr.is_multicast : IPAddr → Bool
  | .v4 a _ _ _ => 224 ≤ a && a ≤ 239
  | .v6 n => n / 2 ^ 120 == 0xff

def IPAddr.is_reserved : IPAddr → Bool
  | .v4 a _ _ _ => 240 ≤ a && a ≤ 255
  | .v6 n =>
    n / 2 ^ 120 == 0x0 || n / 2 ^ 120 == 0x1 || n / 2 ^ 121 == 0x1
    || n / 2 ^ 122 == 0x1 || n / 2 ^ 123 == 0x1 || n / 2 ^ 124 == 0x1
    || n / 2 ^ 125 == 0x2 || n / 2 ^ 125 == 0x3 || n / 2 ^ 125 == 0x4
    || n / 2 ^ 125 == 0x5 || n / 2 ^ 125 == 0x6 || n / 2 ^ 124 == 0xe
    || n / 2 ^ 123 == 0x1e || n / 2 ^ 122 == 0x3e || n / 2 ^ 119 == 0x1fc

def IPAddr.is_private : IPAddr → Bool
  | .v4 a b c d =>
    a == 0 || a == 10 || a == 127 || (a == 169 && b == 254)
    || (a == 172 && 16 ≤ b && b ≤ 31) || (a == 192 && b == 0 && c == 0 && d ≤ 7)
    || (a == 192 && b == 0 && c == 0 && (d == 170 || d == 171))
    || (a == 192 && b == 0 && c == 2) || (a == 192 && b == 168)
    || (a == 198 && (b == 18 || b == 19)) || (a == 198 && b == 51 && c == 100)
    || (a == 203 && b == 0 && c == 113) || (240 ≤ a && a ≤ 255)
  | .v6 n =>
    n == 1 || n == 0 || n / 2 ^ 32 == 0xffff
    || n / 2 ^ 64 == 0x0100000000000000 || n / 2 ^ 105 == 0x100080
    || n / 2 ^ 96 == 0x20010db8 || n / 2 ^ 100 == 0x2001001
    || n / 2 ^ 121 == 0x7e || n / 2 ^ 118 == 0x3fa

/-- The disjunctive unsafe-address test both the validator and the
safe HTTP adapter apply: private, loopback, link-local, multicast or
reserved. -/
def unsafeAddr (ip : IPAddr) : Bool :=
  ip.is_private || ip.is_loopback || ip.is_link_local || ip.is_multicast
    || ip.is_reserved

/-- The explicit cloud-metadata block check in the validator: an IPv4
address inside 169.254.0.0/16 (IPv6 addresses are not subject to it). -/
def inMetadataBlock : IPAddr → Bool
  | .v4 a b _ _ => a == 169 && b == 254
  | .v6 _ => false

/-- The explicit localhost block check in the validator: an IPv4
address inside 127.0.0.0/8. -/
def inLoopbackBlock : IPAddr → Bool
  | .v4 a _ _ _ => a == 127
  | .v6 _ => false

/-- List-based split on a separator character, modelling Python
str.split of a single character (used by the concrete IPv4 parser). -/
def splitOnChar (sep : Char) : List Char → List (List Char)
  | [] => [[]]
  | c :: rest =>
    let r := splitOnChar sep rest
    if c == sep then [] :: r
    else
      match r with
      | [] => [[c]]
      | g :: gs => (c :: g) :: gs

/-- A concrete parser for dotted-quad IPv4 literals, used to
instantiate the abstract ip-parsing argument at witnesses; it mirrors
the Python parser for the IPv4 case (exactly four decimal octets of
at most three digits, no leading zeros, each at most 255). -/
def parseOctet (s : String) : Option Nat :=
  let cs := s.toList
  if cs.isEmpty || 3 < cs.length || !(cs.all Char.isDigit) then none
  else if 1 < cs.length && cs.headD ' ' == '0' then none
  else
    let n := natOfDigits cs
    if n ≤ 255 then some n else none

def ipv4Parse (s : String) : Option IPAddr := do
  match (splitOnChar '.' s.toList).map String.mk with
  | [a, b, c, d] =>
    let a' ← parseOctet a
    let b' ← parseOctet b
    let c' ← parseOctet c
    let d' ← parseOctet d
    pure (.v4 a' b' c' d')
  | _ => none

/-! ### URL normalization and hostname extraction

validate_url_safe first prepends the http scheme when missing, then
takes urlparse(url).hostname; the slice of urlparse semantics needed
for scheme-prefixed urls is transcribed here: the netloc is the text
after the scheme separator up to the first slash, question mark or
hash; the hostname is the netloc with the userinfo part (up to the
last at-sign) removed, brackets resolved, any port removed, and the
result lower-cased, with the empty hostname reported as none. -/

def normalizeUrl (url : String) : String :=
  if strStartsWithStr url "http://" || strStartsWithStr url "https://" then url
  else "http://" ++ url

def schemeOf (url : String) : String :=
  if strStartsWithStr url "https://" then "https"
  else if strStartsWithStr url "http://" then "http"
  else ""

def hostnameOf (url : String) : Option String :=
  let rest :=
    if strStartsWithStr url "http://" then String.mk (url.toList.drop 7)
    else if strStartsWithStr url "https://" then String.mk (url.toList.drop 8)
    else ""
  let netloc := rest.toList.takeWhile (fun c => c != '/' && c != '?' && c != '#')
  let hostinfo := (netloc.reverse.takeWhile (fun c => c != '@')).reverse
  let hostname :=
    if hostinfo.contains '[' then
      ((hostinfo.dropWhile (fun c => c != '[')).drop 1).takeWhile (fun c => c != ']')
    else hostinfo.takeWhile (fun c => c != ':')
  if hostname.isEmpty then none else some (strLower (String.mk hostname))

/-! ### validate_url_safe (app.py)

The embedding passes the effectful dependencies explicitly: resolve
models socket.getaddrinfo restricted to the address strings it
returns (none models a gaierror), and ipParse models
ipaddress.ip_address on one string (none models a ValueError). -/

/-- Validation of one resolved address string: strip the zone suffix,
parse, then apply the unsafe-classification check followed by the two
explicit IPv4 block checks; some message means the whole batch is
rejected with that message. -/
def validateAddr (ipParse : String → Option IPAddr) (raw : String) :
    Option String :=
  let ip_str := stripZone raw
  match ipParse ip_str with
  | none => some "Invalid IP address"
  | some ip =>
    if unsafeAddr ip then
      some ("Access to private/internal addresses not allowed (" ++ ip_str ++ ")")
    else if inMetadataBlock ip then
      some "Access to cloud metadata services not allowed"
    else if inLoopbackBlock ip then
      some "Access to localhost not allowed"
    else none

/-- The loop over all resolved addresses: the first rejection wins. -/
def validateAddrs (ipParse : String → Option IPAddr) :
    List String → Option String
  | [] => none
  | raw :: rest =>
    match validateAddr ipParse raw with
    | some err => some err
    | none => validateAddrs ipParse rest

/-- Embeds validate_url_safe from app.py. -/
def validate_url_safe (url : String) (resolve : String → Option (List String))
    (ipParse : String → Option IPAddr) : Bool × String × Option String :=
  let url := normalizeUrl url
  if schemeOf url != "http" && schemeOf url != "https" then
    (false, url, some "Only HTTP/HTTPS protocols allowed")
  else
    match hostnameOf url with
    | none => (false, url, some "Invalid hostname")
    | some hostname =>
      if ['@', ' ', '\n', '\r', '\t'].any (fun c => hostname.toList.contains c) then
        (false, url, some "Invalid characters in hostname")
      else
        match resolve hostname with
        | none => (false, url, some "Cannot resolve hostname")
        | some resolved_ips =>
          match validateAddrs ipParse resolved_ips with
          | some err => (false, url, some err)
          | none => (true, url, none)

/-- Unsafe-classification of one resolved raw address string under a
given ip parser (false when the string does not parse). -/
def addrUnsafeB (ipParse : String → Option IPAddr) (raw : String) : Bool :=
  match ipParse (stripZone raw) with
  | some ip => unsafeAddr ip
  | none => false

/-- Whether the resolution of a hop hostname contains at least one
address that is private, loopback, link-local, multicast or
reserved. -/
def resolutionHasUnsafe (resolve : String → Option (List String))
    (ipParse : String → Option IPAddr) (host : Option String) : Bool :=
  match host with
  | none => false
  | some h =>
    match resolve h with
    | none => false
    | some raws => raws.any (addrUnsafeB ipParse)

/-- A batch holding any unsafe address is always rejected by the
per-address loop of the validator (worst address wins). -/
theorem validateAddrs_rejects_bad (ipParse : String → Option IPAddr)
    (raws : List String) (h : raws.any (addrUnsafeB ipParse) = true) :
    ∃ err, validateAddrs ipParse raws = some err := by
  induction raws with
  | nil => simp at h
  | cons r rest ih =>
    simp only [List.any_cons, Bool.or_eq_true] at h
    unfold validateAddrs
    cases hv : validateAddr ipParse r with
    | some err => exact ⟨err, rfl⟩
    | none =>
      rcases h with h | h
      · exfalso
        unfold addrUnsafeB at h
        cases hp : ipParse (stripZone r) with
        | none => rw [hp] at h; exact Bool.false_ne_true h
        | some ip =>
          rw [hp] at h
          have h' : unsafeAddr ip = true := h
          have hv2 := hv
          simp only [validateAddr, hp] at hv2
          rw [if_pos h'] at hv2
          exact Option.noConfusion hv2
      · exact ih h

/-- C1: whenever the hostname of the (normalized) input URL resolves
and at least one resolved address is private, loopback, link-local,
multicast or reserved, validate_url_safe returns valid false together
with a rejection reason, regardless of any other (public) addresses
in the batch. -/
theorem C1_worst_address_wins (url : String)
    (resolve : String → Option (List String))
    (ipParse : String → Option IPAddr)
    (h : resolutionHasUnsafe resolve ipParse
      (hostnameOf (normalizeUrl url)) = true) :
    (validate_url_safe url resolve ipParse).1 = false
    ∧ (validate_url_safe url resolve ipParse).2.2.isSome = true := by
  unfold resolutionHasUnsafe at h
  simp only [validate_url_safe]
  split
  · exact ⟨rfl, rfl⟩
  · split
    · exact ⟨rfl, rfl⟩
    · next host hh =>
      simp only [hh] at h
      split
      · exact ⟨rfl, rfl⟩
      · split
        · exact ⟨rfl, rfl⟩
        · next raws hres =>
          simp only [hres] at h
          split
          · exact ⟨rfl, rfl⟩
          · next hnone =>
            obtain ⟨err, he⟩ := validateAddrs_rejects_bad ipParse raws h
            rw [he] at hnone
            exact Option.noConfusion hnone

/-- Concrete resolver for the C1 witness: the hostname resolves to
the cloud metadata address only. -/
def resolveMeta : String → Option (List String) :=
  fun h => if h = "internal.example" then some ["169.254.169.254"] else none

/-- C1 witness: a URL whose hostname resolves to 169.254.169.254 is
rejected. -/
theorem C1_witness :
    resolutionHasUnsafe resolveMeta ipv4Parse
      (hostnameOf (normalizeUrl "http://internal.example")) = true
    ∧ (validate_url_safe "http://internal.example" resolveMeta ipv4Parse).1 = false
    ∧ (validate_url_safe "http://internal.example" resolveMeta
        ipv4Parse).2.2.isSome = true :=
  ⟨by decide,
    C1_worst_address_wins "http://internal.example" resolveMeta ipv4Parse
      (by decide)⟩

/-- C10: validate_url_safe is a total function into the result
triple, and its valid flag is false exactly when the error-reason
component is a non-none string (so every rejection carries a reason
and every acceptance carries none). -/
theorem C10_invalid_iff_reason (url : String)
    (resolve : String → Option (List String))
    (ipParse : String → Option IPAddr) :
    (validate_url_safe url resolve ipParse).1 = false
      ↔ (validate_url_safe url resolve ipParse).2.2.isSome = true := by
  simp only [validate_url_safe]
  split
  · simp
  · split
    · simp
    · split
      · simp
      · split
        · simp
        · split
          · simp
          · simp

/-- Concrete resolver for the C3 evidence: good.com resolves to one
public address; every other name fails to resolve. -/
def resolveGoodCom : String → Option (List String) :=
  fun h => if h = "good.com" then some ["93.184.216.34"] else none

/-- Resolver on which every lookup fails (models a gaierror). -/
def resolveNever : String → Option (List String) :=
  fun _ => none

/-- C3 evidence: for the input evil.com at-sign good.com the urlparse
hostname is good.com (the userinfo part before the at-sign is
stripped by URL parsing), so the at-sign character check never
fires; the validator performs the DNS lookup of good.com and, when
that name is public, accepts the URL.  The second conjunct shows the
outcome depends on the resolver, that is, a DNS lookup does occur. -/
theorem C3_at_sign_reaches_dns :
    validate_url_safe "evil.com@good.com" resolveGoodCom ipv4Parse
      = (true, "http://evil.com@good.com", none)
    ∧ validate_url_safe "evil.com@good.com" resolveNever ipv4Parse
      = (false, "http://evil.com@good.com", some "Cannot resolve hostname") := by
  constructor
  · rfl
  · rfl

/-! ### Safe HTTP session (SafeHTTPAdapter in celery_tasks.py)

The adapter re-resolves the hostname of every request it is asked to
send, including each redirect hop, and raises a requests
ConnectionError when any resolved address is unsafe or when
resolution fails.  A ValueError from parsing a resolved address
string is not caught there and propagates as a generic failure; the
abort type distinguishes the two.  A session fetch with redirects is
modelled as the sequence of per-hop hostnames the request and its
redirect chain induce, each hop passing through the adapter check
before it is issued. -/

inductive ScanAbort where
  | connectionError (msg : String)
  | valueError (msg : String)
deriving DecidableEq

/-- The per-address loop of SafeHTTPAdapter.send: strip the zone,
parse, raise ConnectionError on any unsafe address; an unparseable
address string raises ValueError (uncaught in the source). -/
def SafeHTTPAdapter.checkAddrs (ipParse : String → Option IPAddr) :
    List String → Except ScanAbort Unit
  | [] => .ok ()
  | raw :: rest =>
    let ip_str := stripZone raw
    match ipParse ip_str with
    | none => .error (.valueError ip_str)
    | some ip =>
      if unsafeAddr ip then
        .error (.connectionError ("Blocked private IP in redirect: " ++ ip_str))
      else SafeHTTPAdapter.checkAddrs ipParse rest

/-- Embeds SafeHTTPAdapter.send: re-resolve the hop hostname and
check every resolved address; a resolution failure raises
ConnectionError. -/
def SafeHTTPAdapter.send (resolve : String → Option (List String))
    (ipParse : String → Option IPAddr) (hostname : Option String) :
    Except ScanAbort Unit :=
  match hostname with
  | none => .ok ()
  | some h =>
    match resolve h with
    | none => .error (.connectionError "DNS resolution failed")
    | some raws => SafeHTTPAdapter.checkAddrs ipParse raws

/-- A session fetch over the hop sequence (initial request followed
by each redirect target): every hop passes through the adapter
before being issued, and the first abort ends the fetch. -/
def sessionGet (resolve : String → Option (List String))
    (ipParse : String → Option IPAddr) :
    List (Option String) → Except ScanAbort Unit
  | [] => .ok ()
  | hop :: rest =>
    match SafeHTTPAdapter.send resolve ipParse hop with
    | .error e => .error e
    | .ok _ => sessionGet resolve ipParse rest

/-- Whether every resolved address string of a hop parses as an IP
address (what socket.getaddrinfo in fact guarantees). -/
def hopAllParse (resolve : String → Option (List String))
    (ipParse : String → Option IPAddr) (hop : Option String) : Bool :=
  match hop with
  | none => true
  | some h =>
    match resolve h with
    | none => true
    | some raws => raws.all (fun r => (ipParse (stripZone r)).isSome)

theorem checkAddrs_bad_addr (ipParse : String → Option IPAddr)
    (raws : List String)
    (hp : raws.all (fun r => (ipParse (stripZone r)).isSome) = true)
    (hu : raws.any (addrUnsafeB ipParse) = true) :
    ∃ msg, SafeHTTPAdapter.checkAddrs ipParse raws
      = .error (.connectionError msg) := by
  induction raws with
  | nil => simp at hu
  | cons r rest ih =>
    simp only [List.all_cons, Bool.and_eq_true] at hp
    simp only [List.any_cons, Bool.or_eq_true] at hu
    cases hpr : ipParse (stripZone r) with
    | none => rw [hpr] at hp; exact absurd hp.1 (by simp)
    | some ip =>
      by_cases hui : unsafeAddr ip = true
      · exact ⟨"Blocked private IP in redirect: " ++ stripZone r,
          by simp [SafeHTTPAdapter.checkAddrs, hpr, hui]⟩
      · have hrest : rest.any (addrUnsafeB ipParse) = true := by
          rcases hu with hu | hu
          · exfalso
            unfold addrUnsafeB at hu
            rw [hpr] at hu
            exact hui hu
          · exact hu
        obtain ⟨msg, hmsg⟩ := ih hp.2 hrest
        exact ⟨msg, by simp [SafeHTTPAdapter.checkAddrs, hpr, hui, hmsg]⟩

theorem checkAddrs_no_valueError (ipParse : String → Option IPAddr)
    (raws : List String) (m : String)
    (hp : raws.all (fun r => (ipParse (stripZone r)).isSome) = true) :
    SafeHTTPAdapter.checkAddrs ipParse raws ≠ .error (.valueError m) := by
  induction raws with
  | nil => intro hc; exact Except.noConfusion hc
  | cons r rest ih =>
    simp only [List.all_cons, Bool.and_eq_true] at hp
    intro hc
    cases hpr : ipParse (stripZone r) with
    | none => rw [hpr] at hp; exact absurd hp.1 (by simp)
    | some ip =>
      simp only [SafeHTTPAdapter.checkAddrs, hpr] at hc
      by_cases hui : unsafeAddr ip = true
      · rw [if_pos hui] at hc
        exact ScanAbort.noConfusion (Except.error.inj hc)
      · rw [if_neg hui] at hc
        exact ih hp.2 hc

theorem checkAddrs_ok_all_safe (ipParse : String → Option IPAddr)
    (raws : List String)
    (h : SafeHTTPAdapter.checkAddrs ipParse raws = .ok ()) :
    raws.any (addrUnsafeB ipParse) = false := by
  induction raws with
  | nil => rfl
  | cons r rest ih =>
    cases hpr : ipParse (stripZone r) with
    | none =>
      exfalso
      simp only [SafeHTTPAdapter.checkAddrs, hpr] at h
      exact Except.noConfusion h
    | some ip =>
      simp only [SafeHTTPAdapter.checkAddrs, hpr] at h
      by_cases hui : unsafeAddr ip = true
      · rw [if_pos hui] at h
        exact Except.noConfusion h
      · rw [if_neg hui] at h
        simp only [List.any_cons, Bool.or_eq_false_iff]
        refine ⟨?_, ih h⟩
        unfold addrUnsafeB
        rw [hpr]
        exact Bool.of_not_eq_true hui

/-- C2: in a fetch whose hop resolutions all parse as IP addresses,
the presence of any hop resolving to a private, loopback,
link-local, multicast or reserved address makes the whole fetch
abort with the ConnectionError classification; the check runs before
each hop, so a bad second hop aborts even after a public first
hop. -/
theorem C2_unsafe_hop_aborts_with_connection_error
    (resolve : String → Option (List String))
    (ipParse : String → Option IPAddr) (hops : List (Option String))
    (hp : hops.all (hopAllParse resolve ipParse) = true)
    (hu : hops.any (resolutionHasUnsafe resolve ipParse) = true) :
    ∃ msg, sessionGet resolve ipParse hops
      = .error (.connectionError msg) := by
  induction hops with
  | nil => simp at hu
  | cons hop rest ih =>
    simp only [List.all_cons, Bool.and_eq_true] at hp
    simp only [List.any_cons, Bool.or_eq_true] at hu
    cases hs : SafeHTTPAdapter.send resolve ipParse hop with
    | error e =>
      cases e with
      | connectionError m =>
        exact ⟨m, by simp [sessionGet, hs]⟩
      | valueError m =>
        exfalso
        cases hop with
        | none => exact Except.noConfusion hs
        | some hn =>
          simp only [SafeHTTPAdapter.send] at hs
          cases hr : resolve hn with
          | none =>
            rw [hr] at hs
            exact ScanAbort.noConfusion (Except.error.inj hs)
          | some raws =>
            rw [hr] at hs
            have hpp : raws.all (fun r => (ipParse (stripZone r)).isSome) = true := by
              have h1 := hp.1
              simp only [hopAllParse, hr] at h1
              exact h1
            exact checkAddrs_no_valueError ipParse raws m hpp hs
    | ok u =>
      cases u
      rcases hu with hu | hu
      · exfalso
        cases hop with
        | none => simp [resolutionHasUnsafe] at hu
        | some hn =>
          simp only [SafeHTTPAdapter.send] at hs
          cases hr : resolve hn with
          | none =>
            simp only [resolutionHasUnsafe, hr] at hu
            exact Bool.false_ne_true hu
          | some raws =>
            simp only [resolutionHasUnsafe, hr] at hu
            rw [hr] at hs
            rw [checkAddrs_ok_all_safe ipParse raws hs] at hu
            exact Bool.false_ne_true hu
      · obtain ⟨msg, hmsg⟩ := ih hp.2 hu
        exact ⟨msg, by simp [sessionGet, hs, hmsg]⟩

/-- Concrete resolver for the C2 witness: the first hop is public,
the second resolves to 127.0.0.1. -/
def resolveTwoHops : String → Option (List String) :=
  fun h =>
    if h = "public.example" then some ["93.184.216.34"]
    else if h = "victim.internal" then some ["127.0.0.1"] else none

/-- C2 witness: a redirect chain whose second hop resolves to
127.0.0.1 is aborted with the ConnectionError classification even
though the first hop was public. -/
theorem C2_witness :
    ([some "public.example", some "victim.internal"].all
        (hopAllParse resolveTwoHops ipv4Parse) = true)
    ∧ ([some "public.example", some "victim.internal"].any
        (resolutionHasUnsafe resolveTwoHops ipv4Parse) = true)
    ∧ ∃ msg, sessionGet resolveTwoHops ipv4Parse
        [some "public.example", some "victim.internal"]
        = .error (.connectionError msg) :=
  ⟨by decide, by decide,
    C2_unsafe_hop_aborts_with_connection_error resolveTwoHops ipv4Parse
      [some "public.example", some "victim.internal"] (by decide) (by decide)⟩

/-! ### DNS record checks (check_dns_records in celery_tasks.py)

The TXT resolver is passed in explicitly: ok carries the rendered
record texts (before the quote strip the source applies), error
carries the exception text str(e); any exception in a lookup is
caught per record type. -/

/-- The SPF finding when the TXT lookup succeeded. -/
def spf_from_records (recs : List String) : Finding :=
  match recs.find? (fun r => strStartsWithStr (stripQuotes r) "v=spf1") with
  | some r =>
    { present := true, record := some (stripQuotes r), score := 5,
      severity := some "pass",
      details := "SPF protects against email spoofing" }
  | none =>
    { present := false, record := none, score := 0, severity := some "medium",
      details := "No SPF record found" }

/-- The DMARC finding when the TXT lookup succeeded. -/
def dmarc_from_records (recs : List String) : Finding :=
  match recs.find? (fun r => strStartsWithStr (stripQuotes r) "v=DMARC1") with
  | some r =>
    { present := true, record := some (stripQuotes r), score := 5,
      severity := some "pass",
      details := "DMARC provides email authentication" }
  | none =>
    { present := false, record := none, score := 0, severity := some "medium",
      details := "No DMARC record found" }

/-- Embeds check_dns_records: the SPF lookup on the domain itself and
the DMARC lookup on the _dmarc-prefixed name, each degrading to a
present-false medium finding with the failure text preserved in the
details when the lookup raises. -/
def check_dns_records (domain : String)
    (resolveTxt : String → Except String (List String)) :
    List (String × Finding) :=
  let spf :=
    match resolveTxt domain with
    | .ok recs => spf_from_records recs
    | .error e =>
      { present := false, score := 0, severity := some "medium",
        details := "SPF lookup failed: " ++ e }
  let dmarc :=
    match resolveTxt ("_dmarc." ++ domain) with
    | .ok recs => dmarc_from_records recs
    | .error e =>
      { present := false, score := 0, severity := some "medium",
        details := "DMARC lookup failed: " ++ e }
  [("spf", spf), ("dmarc", dmarc)]

theorem find_isSome_iff_any (p : String → Bool) (l : List String) :
    (l.find? p).isSome = l.any p := by
  induction l with
  | nil => rfl
  | cons r rest ih =>
    by_cases hp : p r = true
    · simp [List.find?, List.any_cons, hp]
    · simp only [List.find?, List.any_cons]
      rw [Bool.of_not_eq_true hp]
      simpa using ih

theorem spf_fields (recs : List String) :
    (spf_from_records recs).present
      = recs.any (fun r => strStartsWithStr (stripQuotes r) "v=spf1")
    ∧ (spf_from_records recs).score
      = (if recs.any (fun r => strStartsWithStr (stripQuotes r) "v=spf1") = true
         then 5 else 0)
    ∧ (spf_from_records recs).severity
      = some (if recs.any (fun r => strStartsWithStr (stripQuotes r) "v=spf1") = true
         then "pass" else "medium") := by
  rw [← find_isSome_iff_any]
  cases hf : recs.find? (fun r => strStartsWithStr (stripQuotes r) "v=spf1") with
  | some r => simp [spf_from_records, hf]
  | none => simp [spf_from_records, hf]

theorem dmarc_fields (recs : List String) :
    (dmarc_from_records recs).present
      = recs.any (fun r => strStartsWithStr (stripQuotes r) "v=DMARC1")
    ∧ (dmarc_from_records recs).score
      = (if recs.any (fun r => strStartsWithStr (stripQuotes r) "v=DMARC1") = true
         then 5 else 0)
    ∧ (dmarc_from_records recs).severity
      = some (if recs.any (fun r => strStartsWithStr (stripQuotes r) "v=DMARC1") = true
         then "pass" else "medium") := by
  rw [← find_isSome_iff_any]
  cases hf : recs.find? (fun r => strStartsWithStr (stripQuotes r) "v=DMARC1") with
  | some r => simp [dmarc_from_records, hf]
  | none => simp [dmarc_from_records, hf]

/-- C7: check_dns_records always produces both findings (it never
aborts); a lookup failure yields a present-false, score-0, medium
finding with the failure reason preserved in the details; on a
successful lookup a record counts as SPF iff its (quote-stripped)
text starts with the SPF version tag, found giving pass and 5, and
the DMARC finding follows the identical procedure on the
_dmarc-prefixed name with the DMARC version tag. -/
theorem C7_dns_failure_degrades (domain : String)
    (resolveTxt : String → Except String (List String)) :
    ((check_dns_records domain resolveTxt).lookup "spf").isSome = true
    ∧ ((check_dns_records domain resolveTxt).lookup "dmarc").isSome = true
    ∧ (∀ e, resolveTxt domain = .error e →
        (check_dns_records domain resolveTxt).lookup "spf"
          = some { present := false, score := 0, severity := some "medium",
                   details := "SPF lookup failed: " ++ e })
    ∧ (∀ recs, resolveTxt domain = .ok recs →
        (check_dns_records domain resolveTxt).lookup "spf"
          = some (spf_from_records recs)
        ∧ (spf_from_records recs).present
            = recs.any (fun r => strStartsWithStr (stripQuotes r) "v=spf1")
        ∧ (spf_from_records recs).score
            = (if recs.any (fun r => strStartsWithStr (stripQuotes r) "v=spf1") = true
               then 5 else 0)
        ∧ (spf_from_records recs).severity
            = some (if recs.any (fun r => strStartsWithStr (stripQuotes r) "v=spf1") = true
               then "pass" else "medium"))
    ∧ (∀ e, resolveTxt ("_dmarc." ++ domain) = .error e →
        (check_dns_records domain resolveTxt).lookup "dmarc"
          = some { present := false, score := 0, severity := some "medium",
                   details := "DMARC lookup failed: " ++ e })
    ∧ (∀ recs, resolveTxt ("_dmarc." ++ domain) = .ok recs →
        (check_dns_records domain resolveTxt).lookup "dmarc"
          = some (dmarc_from_records recs)
        ∧ (dmarc_from_records recs).present
            = recs.any (fun r => strStartsWithStr (stripQuotes r) "v=DMARC1")
        ∧ (dmarc_from_records recs).score
            = (if recs.any (fun r => strStartsWithStr (stripQuotes r) "v=DMARC1") = true
               then 5 else 0)
        ∧ (dmarc_from_records recs).severity
            = some (if recs.any (fun r => strStartsWithStr (stripQuotes r) "v=DMARC1") = true
               then "pass" else "medium")) := by
  refine ⟨?_, ?_, ?_, ?_, ?_, ?_⟩
  · cases h : resolveTxt domain <;> simp [check_dns_records, h]
  · cases h : resolveTxt ("_dmarc." ++ domain) <;> simp [check_dns_records, h]
  · intro e he
    simp [check_dns_records, he]
  · intro recs hrecs
    refine ⟨by simp [check_dns_records, hrecs], ?_, ?_, ?_⟩
    · exact (spf_fields recs).1
    · exact (spf_fields recs).2.1
    · exact (spf_fields recs).2.2
  · intro e he
    simp only [check_dns_records, he]
    rfl
  · intro recs hrecs
    refine ⟨by simp only [check_dns_records, hrecs]; rfl, ?_, ?_, ?_⟩
    · exact (dmarc_fields recs).1
    · exact (dmarc_fields recs).2.1
    · exact (dmarc_fields recs).2.2

/-- Concrete TXT resolver for the C7 witness: the SPF lookup raises,
the DMARC lookup finds a record. -/
def resolveTxtW : String → Except String (List String) :=
  fun q =>
    if q = "example.org" then .error "The DNS query name does not exist."
    else if q = "_dmarc.example.org" then .ok ["\"v=DMARC1; p=none\""]
    else .error "no answer"

/-- C7 witness: on a domain whose SPF lookup fails and whose DMARC
lookup finds a record, the SPF finding degrades to a medium absence
carrying the failure text, and the DMARC finding is the pass finding
computed from the records. -/
theorem C7_witness :
    (check_dns_records "example.org" resolveTxtW).lookup "spf"
      = some { present := false, score := 0, severity := some "medium",
               details := "SPF lookup failed: The DNS query name does not exist." }
    ∧ (check_dns_records "example.org" resolveTxtW).lookup "dmarc"
      = some (dmarc_from_records ["\"v=DMARC1; p=none\""])
    ∧ (dmarc_from_records ["\"v=DMARC1; p=none\""]).present = true := by
  obtain ⟨-, -, herr, -, -, hok⟩ := C7_dns_failure_degrades "example.org" resolveTxtW
  refine ⟨herr _ rfl, (hok _ rfl).1, ?_⟩
  rw [(hok ["\"v=DMARC1; p=none\""] rfl).2.1]
  decide

/-! ### The scan task (perform_security_scan in celery_tasks.py)

The fetch, the TXT resolver and the database save are environment
inputs; the redis cache is modelled as the list of key-value writes
the task performs.  The advisory progress updates and the wall-clock
fields (scan_duration_ms, scanned_at) are elided, being pure
environment reads that no consumer of the result depends on. -/

/-- Default resource cap: MAX_RESPONSE_SIZE_MB (default 10) times
1024 times 1024 bytes. -/
def MAX_RESPONSE_SIZE : Nat := 10 * 1024 * 1024

inductive FetchExc where
  | timeout
  | sslError (msg : String)
  | connectionError (msg : String)
  | otherExc (msg : String)
deriving DecidableEq

structure HttpResponse where
  headers : List (String × String)
  url : String
  status_code : Nat
  content_length : Option Nat
  content_size : Nat
deriving DecidableEq

structure ScanEnv where
  fetch : Except FetchExc HttpResponse
  resolveTxt : String → Except String (List String)
  dbError : Option String

structure ScanResultRec where
  url : String
  domain : Option String
  score : Int
  report : List (String × Bool)
  findings_headers : List (String × Finding)
  findings_cookies : Finding
  findings_dns : List (String × Finding)
  explanation : String
  final_url : String
  status_code : Nat
  db_error : Option String := none
deriving DecidableEq

/-- The terminal outcome of one scan task: a complete result, or a
classified error dict carrying the error text with the url and
domain. -/
inductive ScanOutcome where
  | ok (result : ScanResultRec)
  | failed (error : String) (url : String) (domain : Option String)
deriving DecidableEq

/-- The dict-splat of the cookie finding into the merged mapping the
score function receives: its scalar fields are not finding dicts, so
none of them carries a score the total picks up. -/
def splatCookie (f : Finding) : List (String × PyVal) :=
  if f.present then
    [("present", .other), ("issues", .other), ("score", .other),
     ("severity", .other), ("details", .other)]
  else [("present", .other), ("score", .other)]

/-- findings.get(key, empty dict).get(present, False). -/
def presentOf (fs : List (String × Finding)) (k : String) : Bool :=
  match fs.lookup k with
  | some f => f.present
  | none => false

/-- The flat boolean report in insertion order; the server_header key
is true when the Server header IS disclosed. -/
def flatReportOf (hf dnsF : List (String × Finding)) : List (String × Bool) :=
  [("https", presentOf hf "https"),
   ("hsts", presentOf hf "hsts"),
   ("content_security_policy", presentOf hf "csp"),
   ("x_frame_options", presentOf hf "x_frame_options"),
   ("x_content_type_options", presentOf hf "x_content_type_options"),
   ("referrer_policy", presentOf hf "referrer_policy"),
   ("permissions_policy", presentOf hf "permissions_policy"),
   ("server_header", presentOf hf "server_disclosure"),
   ("dns_spf", presentOf dnsF "spf"),
   ("dns_dmarc", presentOf dnsF "dmarc")]

/-- The label map with default key passthrough. -/
def labelOf (k : String) : String :=
  if k = "https" then "HTTPS" else if k = "hsts" then "HSTS"
  else if k = "content_security_policy" then "CSP"
  else if k = "x_frame_options" then "X-Frame-Options"
  else if k = "x_content_type_options" then "X-Content-Type-Options"
  else if k = "referrer_policy" then "Referrer-Policy"
  else if k = "permissions_policy" then "Permissions-Policy"
  else if k = "dns_spf" then "SPF" else if k = "dns_dmarc" then "DMARC"
  else k

/-- The grade bands of the explanation string. -/
def gradeOf (score : Int) : String :=
  if 80 ≤ score then "Excellent" else if 60 ≤ score then "Good"
  else if 40 ≤ score then "Moderate" else "Critical"

/-- The human-readable explanation string the task builds. -/
def explanationOf (flat : List (String × Bool)) (score : Int) : String :=
  let passed := (flat.filter (fun kv => kv.1 != "server_header" && kv.2)).map Prod.fst
  let failedKeys := (flat.filter (fun kv => kv.1 != "server_header" && !kv.2)).map Prod.fst
  let passed_labels :=
    if passed.isEmpty then "None"
    else String.intercalate ", " (passed.map labelOf)
  let failed_labels :=
    if failedKeys.isEmpty then "None"
    else String.intercalate ", " (failedKeys.map labelOf)
  "<strong>Security Grade: " ++ gradeOf score ++ " (" ++ toString score
    ++ "/100)</strong><br><strong>Passed (" ++ toString passed.length
    ++ "):</strong> " ++ passed_labels ++ "<br><strong>Failed ("
    ++ toString failedKeys.length ++ "):</strong> " ++ failed_labels
    ++ (if ((flat.lookup "server_header").getD false) then
        " <br><em>Server version is disclosed in response headers.</em>" else "")

/-- The successful tail of the scan task, after the fetch succeeded
and both size guards passed: analysis, scoring, report and
explanation building, the single cache write, and the swallowed
database failure that only annotates the returned (not the cached)
result. -/
def scan_success (env : ScanEnv) (url : String) (user_id : Option Nat)
    (domain : Option String) (response : HttpResponse) :
    ScanOutcome × List (String × ScanResultRec) :=
  let headers := response.headers
  let header_findings := analyze_security_headers headers response.url
  let cookie_findings := analyze_cookies headers
  let domainStr := match domain with | some d => d | none => "None"
  let dns_findings := check_dns_records domainStr env.resolveTxt
  let merged := header_findings.map (fun kv => (kv.1, PyVal.findingV kv.2))
    ++ splatCookie cookie_findings
    ++ dns_findings.map (fun kv => (kv.1, PyVal.findingV kv.2))
  let score := calculate_overall_score merged
  let flat_report := flatReportOf header_findings dns_findings
  let explanation := explanationOf flat_report score
  let result : ScanResultRec :=
    { url := url, domain := domain, score := score, report := flat_report,
      findings_headers := header_findings, findings_cookies := cookie_findings,
      findings_dns := dns_findings, explanation := explanation,
      final_url := response.url, status_code := response.status_code }
  let writes := [("scan:" ++ domainStr, result)]
  let result2 :=
    if (match user_id with | some uid => uid != 0 | none => false) then
      match env.dbError with
      | some e => { result with db_error := some e }
      | none => result
    else result
  (.ok result2, writes)

/-- Embeds perform_security_scan: classified error returns carry no
cache write; the cache write happens only in the successful tail. -/
def perform_security_scan (env : ScanEnv) (url : String)
    (user_id : Option Nat) : ScanOutcome × List (String × ScanResultRec) :=
  let domain := hostnameOf url
  match env.fetch with
  | .error .timeout =>
    (.failed "Request timeout - site took too long to respond" url domain, [])
  | .error (.sslError e) => (.failed ("SSL/TLS error: " ++ e) url domain, [])
  | .error (.connectionError e) =>
    (.failed ("Connection error: " ++ e) url domain, [])
  | .error (.otherExc e) => (.failed ("Scan failed: " ++ e) url domain, [])
  | .ok response =>
    if (match response.content_length with
        | some cl => decide (MAX_RESPONSE_SIZE < cl)
        | none => false) then
      (.failed "Response too large" url domain, [])
    else if MAX_RESPONSE_SIZE ≤ min response.content_size MAX_RESPONSE_SIZE then
      (.failed "Response too large" url domain, [])
    else scan_success env url user_id domain response

theorem scan_success_shape (env : ScanEnv) (url : String)
    (user_id : Option Nat) (domain : Option String) (response : HttpResponse) :
    ∃ r key, (scan_success env url user_id domain response).1 = .ok r
      ∧ (scan_success env url user_id domain response).2
          = [(key, { r with db_error := none })] := by
  simp only [scan_success]
  split
  · cases hdb : env.dbError with
    | some e => exact ⟨_, _, rfl, rfl⟩
    | none => exact ⟨_, _, rfl, rfl⟩
  · exact ⟨_, _, rfl, rfl⟩

/-- C8: a scan ending in a classified-error result writes nothing to
the cache, and any cache write the scan performs is exactly the
complete, non-failed result (without the database-error annotation
that may be added to the returned copy afterwards). -/
theorem C8_failed_never_cached (env : ScanEnv) (url : String)
    (user_id : Option Nat) :
    (∀ e u d, (perform_security_scan env url user_id).1 = .failed e u d →
      (perform_security_scan env url user_id).2 = [])
    ∧ ((perform_security_scan env url user_id).2 ≠ [] →
      ∃ r key, (perform_security_scan env url user_id).1 = .ok r
        ∧ (perform_security_scan env url user_id).2
            = [(key, { r with db_error := none })]) := by
  simp only [perform_security_scan]
  split
  · exact ⟨fun _ _ _ _ => rfl, fun hc => absurd rfl hc⟩
  · exact ⟨fun _ _ _ _ => rfl, fun hc => absurd rfl hc⟩
  · exact ⟨fun _ _ _ _ => rfl, fun hc => absurd rfl hc⟩
  · exact ⟨fun _ _ _ _ => rfl, fun hc => absurd rfl hc⟩
  · next response heq =>
    split
    · exact ⟨fun _ _ _ _ => rfl, fun hc => absurd rfl hc⟩
    · split
      · exact ⟨fun _ _ _ _ => rfl, fun hc => absurd rfl hc⟩
      · obtain ⟨r, key, h1, h2⟩ :=
          scan_success_shape env url user_id (hostnameOf url) response
        refine ⟨?_, fun _ => ⟨r, key, h1, h2⟩⟩
        intro e u d hfail
        rw [h1] at hfail
        exact ScanOutcome.noConfusion hfail

/-- Environment for the C8 witness: the fetch times out. -/
def envTimeout : ScanEnv :=
  { fetch := .error .timeout, resolveTxt := fun _ => .error "unused",
    dbError := none }

/-- C8 witness: a timed-out scan ends in the classified timeout
result and performs no cache write. -/
theorem C8_witness :
    (perform_security_scan envTimeout "http://example.com" none).1
      = .failed "Request timeout - site took too long to respond"
          "http://example.com" (hostnameOf "http://example.com")
    ∧ (perform_security_scan envTimeout "http://example.com" none).2 = [] := by
  refine ⟨rfl, ?_⟩
  exact (C8_failed_never_cached envTimeout "http://example.com" none).1 _ _ _ rfl

/-- C10 witness: a URL whose hostname cannot be resolved is invalid
and carries a non-none reason, by the equivalence. -/
theorem C10_witness :
    (validate_url_safe "http://nxdomain.example" resolveNever ipv4Parse).1 = false
    ∧ (validate_url_safe "http://nxdomain.example" resolveNever
        ipv4Parse).2.2.isSome = true :=
  ⟨rfl, (C10_invalid_iff_reason "http://nxdomain.example" resolveNever
    ipv4Parse).mp rfl⟩
